import Mathlib

/-!
Shallow embedding of the Instance_Detection extraction pipeline
(`src/extraction.py`), covering the distributed gather-and-reconcile
algorithm in `run_extraction`, the shard assignment performed by
`DistributedSampler`, mask binarization and composition in
`FeatureExtractor`, the diagnostic image persistence, the rank-0
persistence step, and model selection in `main`.

Feature vectors are abstracted over a type `α` (the encoder is an external
black box); metadata fields are embedded as the parallel lists the Python
dict-of-lists holds.
-/

namespace InstanceDetection

/-- The per-batch / accumulated metadata bundle: a dict of parallel lists
with the six fields used in `extraction.py` (`id` is a torch tensor of
integers, the other five are Python lists of strings). -/
structure Metadata where
  id : List Int
  object_name : List String
  data_dir : List String
  image_path : List String
  mask_path : List String
  dataset_type : List String
deriving DecidableEq, Repr

/-- Worker-local metadata accumulation (extraction.py lines 439-448):
the first batch initialises the dict, later batches are appended field by
field — `torch.cat((all_metadata['id'], metadata['id']))` for `id` and
`list.extend` for the string fields, both appending the new batch AFTER
the accumulator. -/
def appendMeta (acc b : Metadata) : Metadata :=
  { id := acc.id ++ b.id
    object_name := acc.object_name ++ b.object_name
    data_dir := acc.data_dir ++ b.data_dir
    image_path := acc.image_path ++ b.image_path
    mask_path := acc.mask_path ++ b.mask_path
    dataset_type := acc.dataset_type ++ b.dataset_type }

/-- Worker-local accumulation over all batches; `none` models the state in
which `all_metadata` is still the empty dict `{}` (no batch processed). -/
def accumWorkerMeta (batches : List Metadata) : Option Metadata :=
  batches.foldl
    (fun acc b =>
      match acc with
      | none => some b
      | some m => some (appendMeta m b))
    none

/-- One worker's gathered contribution after the barrier: its list of
per-batch feature matrices (`all_features`, each matrix a list of row
vectors) and its accumulated metadata dict (`all_metadata`; `none` models
the empty dict of a worker that processed no batch). -/
structure WorkerLog (α : Type) where
  featureBatches : List (List α)
  meta : Option Metadata

/-- Global feature flatten (extraction.py lines 462-468): iterate the
gathered per-worker feature lists in worker-rank order and extend
`flat_features` with the rows of every batch matrix. -/
def globalFlattenFeatures {α : Type} (workers : List (WorkerLog α)) : List α :=
  (workers.map (fun w => w.featureBatches.flatten)).flatten

/-- Global metadata flatten (extraction.py lines 469-479). Faithful to
the source: the five string fields are extended with the next worker's
lists (appended AFTER the accumulator), but the `id` field is built as
`torch.cat((proc_metadata['id'], flat_metadata['id']))`, which prepends
the next worker's ids BEFORE the accumulator. `.error` models the
`KeyError` raised when a later worker's dict is `{}` while the
accumulator is non-empty. -/
def globalFlattenMeta : List (Option Metadata) → Except String (Option Metadata)
  | procs =>
    procs.foldlM
      (fun acc proc =>
        match acc, proc with
        | none, p => Except.ok p
        | some _, none => Except.error "KeyError: id"
        | some flat, some p =>
            Except.ok (some
              { id := p.id ++ flat.id
                object_name := flat.object_name ++ p.object_name
                data_dir := flat.data_dir ++ p.data_dir
                image_path := flat.image_path ++ p.image_path
                mask_path := flat.mask_path ++ p.mask_path
                dataset_type := flat.dataset_type ++ p.dataset_type }))
      none

/-- The id stored at position `i` of the flattened id column. -/
def idAt (ids : List Int) (i : Nat) : Int := ids.getD i 0

/-- Insert position `i` into an already-sorted list of positions, after
every position whose id is ≤ its id (a stable insertion, matching the
stability of Python's `sorted`). -/
def insertPos (ids : List Int) (i : Nat) : List Nat → List Nat
  | [] => [i]
  | j :: rest =>
      if idAt ids j ≤ idAt ids i then j :: insertPos ids i rest
      else i :: j :: rest

/-- The sort permutation of extraction.py lines 481-483:
`sorted(enumerate(flat_metadata['id']), key=lambda x: x[1])` projected to
the positions — a stable ascending sort of `0, 1, ...` by id value. -/
def sortPerm (ids : List Int) : List Nat :=
  (List.range ids.length).foldl (fun acc i => insertPos ids i acc) []

/-- Reindex every metadata field by the sort permutation
(extraction.py lines 487-494). -/
def applyPermMeta (perm : List Nat) (m : Metadata) : Metadata :=
  { id := perm.map (idAt m.id)
    object_name := perm.map (fun i => m.object_name.getD i "")
    data_dir := perm.map (fun i => m.data_dir.getD i "")
    image_path := perm.map (fun i => m.image_path.getD i "")
    mask_path := perm.map (fun i => m.mask_path.getD i "")
    dataset_type := perm.map (fun i => m.dataset_type.getD i "") }

/-- The reconciled result: the sorted feature matrix (list of row
vectors) and the sorted metadata table. -/
structure GlobalResultSet (α : Type) where
  features : List α
  meta : Metadata

/-- The distributed reconcile step (extraction.py lines 462-499):
global flatten of features and metadata, sort permutation of the id
column, and application of the permutation to the feature array and to
every metadata field. `.error` models the uncaught Python exceptions on
this path (the `KeyError` when `flat_metadata` stays the empty dict). -/
def reconcile {α : Type} [Inhabited α] (workers : List (WorkerLog α)) :
    Except String (GlobalResultSet α) := do
  let flatFeatures := globalFlattenFeatures workers
  match ← globalFlattenMeta (workers.map (fun w => w.meta)) with
  | none => Except.error "KeyError: id"
  | some flatMeta =>
      let perm := sortPerm flatMeta.id
      Except.ok
        { features := perm.map (fun i => flatFeatures.getD i default)
          meta := applyPermMeta perm flatMeta }

/-- `np.vstack(all_features)` on the single-process path
(extraction.py line 501): stacks the per-batch matrices into one matrix;
raises `ValueError` on an empty list of arrays. -/
def npVstack {α : Type} (mats : List (List α)) : Except String (List α) :=
  if mats.isEmpty then Except.error "ValueError: need at least one array to concatenate"
  else Except.ok mats.flatten

/-- The non-distributed aggregation path (extraction.py lines 426-450 and
500-501): per-batch features are appended to `all_features` and metadata
is accumulated field-wise; at the end the features are `np.vstack`-ed and
no sorting occurs. Input: one `(features, metadata)` pair per batch, in
batch order. -/
def singleProcessAggregate {α : Type} (batches : List (List α × Metadata)) :
    Except String (GlobalResultSet α) := do
  let feats ← npVstack (batches.map Prod.fst)
  match accumWorkerMeta (batches.map Prod.snd) with
  | some m => Except.ok { features := feats, meta := m }
  | none =>
      Except.ok { features := feats,
                  meta := { id := [], object_name := [], data_dir := [],
                            image_path := [], mask_path := [], dataset_type := [] } }

/-- Rank-0 persistence (extraction.py lines 503-542): the feature matrix
is bulk-added to the Faiss index and saved, the metadata table is dumped
as the sidecar, and a plain-text summary is written. The filesystem is
external; the artifact contents are what the code hands to it. -/
structure Artifacts (α : Type) where
  indexRows : List α
  sidecar : Metadata
  summaryWritten : Bool
deriving Repr

/-- What rank 0 persists from its reconciled result set
(extraction.py lines 503-542). -/
def persistRank0 {α : Type} (g : GlobalResultSet α) : Artifacts α :=
  { indexRows := g.features, sidecar := g.meta, summaryWritten := true }

/-- Index positions handed to one worker by
`DistributedSampler(dataset, shuffle=False)` (extraction.py line 398)
with the default `drop_last=False`: the index list `0..N-1` is padded by
repeating initial indices up to `ceil(N/W)*W`, then the worker takes the
stride-`W` slice starting at its rank. -/
def paddedIndices (worldSize datasetSize : Nat) : List Nat :=
  let numSamples := (datasetSize + worldSize - 1) / worldSize
  let totalSize := numSamples * worldSize
  let base := List.range datasetSize
  let padding := totalSize - datasetSize
  base ++ (List.flatten (List.replicate padding base)).take padding

/-- The shard of dataset indices assigned to `rank` by
`DistributedSampler` (shuffle=False, drop_last=False):
`indices[rank : total_size : world_size]`. -/
def shardIndices (worldSize rank datasetSize : Nat) : List Nat :=
  let numSamples := (datasetSize + worldSize - 1) / worldSize
  let padded := paddedIndices worldSize datasetSize
  (List.range numSamples).map (fun i => padded.getD (rank + i * worldSize) 0)

/-- A 4-dimensional tensor (B, C, H, W) with rational entries; `data` is a
total function read within the shape bounds. -/
structure Batch4 where
  bsz : Nat
  channels : Nat
  height : Nat
  width : Nat
  data : Nat → Nat → Nat → Nat → ℚ

/-- `FeatureExtractor._prepare_binary_mask` (extraction.py lines 265-277):
`(mask > threshold).float()` — elementwise strict greater-than, 1.0 where
true and 0.0 where false, same shape. -/
def prepareBinaryMask (mask : Batch4) (threshold : ℚ) : Batch4 :=
  { mask with data := fun b c h w => if mask.data b c h w > threshold then 1 else 0 }

/-- `tensor.expand(-1, C, -1, -1)` (extraction.py line 301): the channel
dimension must be `C` already or of size 1; a size-1 channel is broadcast
by always reading channel 0. `none` models the `RuntimeError` on any
other size. -/
def expandChannel (m : Batch4) (c : Nat) : Option Batch4 :=
  if m.channels = c then some m
  else if m.channels = 1 then
    some { m with channels := c, data := fun b _ h w => m.data b 0 h w }
  else none

/-- Size of a broadcast output dimension under PyTorch semantics: equal
sizes pass through, a size-1 side is stretched to the other, anything
else is a shape error. -/
def bdim (a b : Nat) : Option Nat :=
  if a = b then some a else if a = 1 then some b else if b = 1 then some a else none

/-- The index used to read a tensor of size `size` in a dimension whose
broadcast output index is `i`: a size-1 dimension always reads 0. -/
def bidx (size i : Nat) : Nat := if size = 1 then 0 else i

/-- Elementwise tensor product `x * y` with PyTorch broadcasting
(extraction.py line 302): every dimension pair must be equal or contain a
1; otherwise the multiply raises a shape `RuntimeError`, modelled as
`none`. -/
def broadcastMul (x y : Batch4) : Option Batch4 :=
  match bdim x.bsz y.bsz, bdim x.channels y.channels,
        bdim x.height y.height, bdim x.width y.width with
  | some b, some c, some h, some w =>
      some { bsz := b, channels := c, height := h, width := w
             data := fun i j k l =>
               x.data (bidx x.bsz i) (bidx x.channels j) (bidx x.height k) (bidx x.width l) *
               y.data (bidx y.bsz i) (bidx y.channels j) (bidx y.height k) (bidx y.width l) }
  | _, _, _, _ => none

/-- The mask-composition part of `FeatureExtractor.extract_features`
(extraction.py lines 297-302) on an already 4-dimensional mask batch (the
pipeline builds masks as `(B, 1, H, W)`, so `dim() < 4` is false):
binarize at threshold 0.5, expand across the image's channel axis, and
multiply into the images. `none` models the uncaught shape
`RuntimeError`s. -/
def composeMaskedImages (images masks : Batch4) : Option Batch4 := do
  let binary := prepareBinaryMask masks (1 / 2 : ℚ)
  let expanded ← expandChannel binary images.channels
  broadcastMul images expanded

/-- `FeatureExtractor.extract_features` control flow around the
diagnostic persistence (extraction.py lines 279-310): compose the masked
images, then call `save_sample_images` with NO surrounding try/except
(line 304), then run the encoder. `saveOutcome` is the outcome of the
filesystem writes in `save_sample_images` (an external effect);
`encoder` is the external feature extractor. An exception anywhere on
this path propagates out of `extract_features`. -/
def extractFeatures {α : Type} (saveOutcome : Except String Unit)
    (encoder : Batch4 → List α) (images masks : Batch4) :
    Except String (List α) := do
  match composeMaskedImages images masks with
  | none => Except.error "RuntimeError: shape mismatch"
  | some masked =>
      match saveOutcome with
      | Except.error e => Except.error e
      | Except.ok _ => Except.ok (encoder masked)

/-- Model selection in `main` (extraction.py line 567):
`"CLIP" if config.models['CLIP'].name != "None" else "DINOV2"`, where the
`name` field of `ModelConfig` is `Optional[str]` defaulting to Python
`None` (embedded as `Option.none`). -/
def selectModelType (clipName : Option String) : String :=
  if clipName ≠ some "None" then "CLIP" else "DINOV2"

/-! Concrete inputs for the spec's distributed scenario: 4 samples with
ids [3, 1, 4, 2], worker 0 holding [3, 1] and worker 1 holding [4, 2],
each worker one batch; the vector originally produced for the sample
with id k is [10 * k]. -/

/-- Worker 0 of the scenario: samples with ids 3 and 1. -/
def scenarioWorker0 : WorkerLog (List Int) :=
  { featureBatches := [[[30], [10]]]
    meta := some { id := [3, 1], object_name := ["obj3", "obj1"]
                   data_dir := ["dd3", "dd1"], image_path := ["im3", "im1"]
                   mask_path := ["mk3", "mk1"], dataset_type := ["dt3", "dt1"] } }

/-- Worker 1 of the scenario: samples with ids 4 and 2. -/
def scenarioWorker1 : WorkerLog (List Int) :=
  { featureBatches := [[[40], [20]]]
    meta := some { id := [4, 2], object_name := ["obj4", "obj2"]
                   data_dir := ["dd4", "dd2"], image_path := ["im4", "im2"]
                   mask_path := ["mk4", "mk2"], dataset_type := ["dt4", "dt2"] } }

/-- C1: the claim states that after reconciliation the id column is
[1, 2, 3, 4] and row i's feature vector is the vector originally produced
for the i-th smallest id. On the embedded code the id column is indeed
[1, 2, 3, 4], but the feature rows come out as [[20], [10], [40], [30]]
instead of [[10], [20], [30], [40]]: row 0 carries the vector of the
sample with id 2 while its id says 1, because the global flatten
concatenates the id column in reverse worker order while the features are
concatenated in worker-rank order. -/
theorem c1_reconcile_feature_rows_misaligned :
    reconcile [scenarioWorker0, scenarioWorker1] =
      Except.ok
        { features := [[20], [10], [40], [30]]
          meta := { id := [1, 2, 3, 4], object_name := ["obj2", "obj1", "obj4", "obj3"]
                    data_dir := ["dd2", "dd1", "dd4", "dd3"]
                    image_path := ["im2", "im1", "im4", "im3"]
                    mask_path := ["mk2", "mk1", "mk4", "mk3"]
                    dataset_type := ["dt2", "dt1", "dt4", "dt3"] } } ∧
    ([[20], [10], [40], [30]] : List (List Int)) ≠ [[10], [20], [30], [40]] := by
  exact ⟨rfl, by decide⟩

/-- Minimal two-worker input showing the global-flatten misalignment:
worker 0 holds the single sample with id 1, worker 1 the single sample
with id 2. -/
def alignWorker0 : WorkerLog (List Int) :=
  { featureBatches := [[[10]]]
    meta := some { id := [1], object_name := ["objA"], data_dir := ["ddA"]
                   image_path := ["imA"], mask_path := ["mkA"], dataset_type := ["dtA"] } }

/-- Worker 1 of the minimal alignment input: the sample with id 2. -/
def alignWorker1 : WorkerLog (List Int) :=
  { featureBatches := [[[20]]]
    meta := some { id := [2], object_name := ["objB"], data_dir := ["ddB"]
                   image_path := ["imB"], mask_path := ["mkB"], dataset_type := ["dtB"] } }

/-- C2: the claim states that the global flatten concatenates features and
every metadata field in worker-rank order, leaving them index-aligned. On
the embedded code the features and the string fields do come out in rank
order ([[10], [20]] and ["objA", "objB"]), but the id column comes out as
[2, 1] — reverse worker order — so position 0 pairs worker 0's feature and
object name with worker 1's id. -/
theorem c2_global_flatten_id_column_reversed :
    globalFlattenFeatures [alignWorker0, alignWorker1] = [[10], [20]] ∧
    globalFlattenMeta [alignWorker0.meta, alignWorker1.meta] =
      Except.ok (some
        { id := [2, 1], object_name := ["objA", "objB"], data_dir := ["ddA", "ddB"]
          image_path := ["imA", "imB"], mask_path := ["mkA", "mkB"]
          dataset_type := ["dtA", "dtB"] }) ∧
    ([2, 1] : List Int) ≠ [1, 2] := by
  exact ⟨rfl, rfl, by decide⟩

/-- Two workers that both report the sample id 1 — a duplicate-id
violation of the data model. -/
def dupWorker0 : WorkerLog (List Int) :=
  { featureBatches := [[[10]]]
    meta := some { id := [1], object_name := ["dupA"], data_dir := ["ddA"]
                   image_path := ["imA"], mask_path := ["mkA"], dataset_type := ["dtA"] } }

/-- Second worker reporting the same id 1. -/
def dupWorker1 : WorkerLog (List Int) :=
  { featureBatches := [[[20]]]
    meta := some { id := [1], object_name := ["dupB"], data_dir := ["ddB"]
                   image_path := ["imB"], mask_path := ["mkB"], dataset_type := ["dtB"] } }

/-- C3: the claim states that duplicate ids make reconciliation fail with
ReconciliationIntegrityError and abort the run. On the embedded code a
duplicate id raises nothing: reconciliation returns a result set whose id
column is [1, 1] and the run carries on to persist it. (The only failure
on this path is the KeyError for an all-empty metadata dict; no integrity
check of any kind exists.) -/
theorem c3_duplicate_ids_pass_through :
    reconcile [dupWorker0, dupWorker1] =
      Except.ok
        { features := [[10], [20]]
          meta := { id := [1, 1], object_name := ["dupA", "dupB"]
                    data_dir := ["ddA", "ddB"], image_path := ["imA", "imB"]
                    mask_path := ["mkA", "mkB"], dataset_type := ["dtA", "dtB"] } } := by
  rfl

/-- C8: the claim states that rank 0 persists a sidecar with one record
per sample, whose record order matches the index row order, next to the
index and the summary. On the embedded code the artifacts are written,
but in the distributed scenario record 0 of the sidecar carries id 1
while index row 0 is the vector [20] of the sample with id 2 (and record
0's object name is that of sample 2), so the sidecar records do not match
the index rows sample-for-sample. -/
theorem c8_persisted_sidecar_id_mismatch :
    Except.map persistRank0 (reconcile [scenarioWorker0, scenarioWorker1]) =
      Except.ok
        { indexRows := [[20], [10], [40], [30]]
          sidecar := { id := [1, 2, 3, 4], object_name := ["obj2", "obj1", "obj4", "obj3"]
                       data_dir := ["dd2", "dd1", "dd4", "dd3"]
                       image_path := ["im2", "im1", "im4", "im3"]
                       mask_path := ["mk2", "mk1", "mk4", "mk3"]
                       dataset_type := ["dt2", "dt1", "dt4", "dt3"] }
          summaryWritten := true } ∧
    ([[20], [10], [40], [30]] : List (List Int)).getD 0 [] ≠ [10] := by
  exact ⟨rfl, by decide⟩

/-- Metadata of a single sample with id 0, used for the size-1 boundary
input. -/
def singleMeta : Metadata :=
  { id := [0], object_name := ["only"], data_dir := ["dd"]
    image_path := ["im"], mask_path := ["mk"], dataset_type := ["dt"] }

/-- C9 counterexample: the claim states that a dataset of size 0 produces
an empty index build instead of a crash; on the embedded single-process
path, zero batches reach `np.vstack`, which raises ValueError. -/
theorem c9_counterexample_empty_dataset_raises :
    singleProcessAggregate ([] : List (List (List Int) × Metadata)) =
      Except.error "ValueError: need at least one array to concatenate" := by
  rfl

/-- C9 amended: a dataset of size 1 with a single worker does produce a
result set of exactly one row; a dataset of size 0, however, raises
(ValueError from `np.vstack` on the single-process path, KeyError on the
distributed path) instead of completing with an empty index build. -/
theorem c9_size_one_row_and_size_zero_raises :
    singleProcessAggregate [([[5]], singleMeta)] =
      Except.ok { features := [[5]], meta := singleMeta } ∧
    (singleProcessAggregate [([[5]], singleMeta)]).toOption.map
      (fun g => g.features.length) = some 1 ∧
    singleProcessAggregate ([] : List (List (List Int) × Metadata)) =
      Except.error "ValueError: need at least one array to concatenate" ∧
    reconcile ([{ featureBatches := [], meta := none },
                { featureBatches := [], meta := none }] : List (WorkerLog (List Int))) =
      Except.error "KeyError: id" := by
  exact ⟨rfl, rfl, rfl, rfl⟩

/-- Reading the index list gives back the index while in bounds. -/
theorem getD_range (n j : Nat) (h : j < n) : (List.range n).getD j 0 = j := by
  simp [List.getD, List.getElem?_range, h]

/-- The sampler's `ceil(N/W)` equals `m` when `N = w * m`. -/
theorem ceilDiv_of_dvd (w m : Nat) (hw : 0 < w) : (w * m + w - 1) / w = m := by
  have h2 : w * m + w - 1 = w * m + (w - 1) := by omega
  rw [h2, Nat.mul_add_div hw, Nat.div_eq_of_lt (by omega)]
  omega

/-- With a divisible dataset size no padding happens: the padded index
list is just `0..N-1`. -/
theorem paddedIndices_of_dvd (w m : Nat) (hw : 0 < w) :
    paddedIndices w (w * m) = List.range (w * m) := by
  unfold paddedIndices
  simp [ceilDiv_of_dvd w m hw, Nat.mul_comm m w]

/-- With a divisible dataset size, rank r's shard is the arithmetic
progression r, r + w, r + 2w, ... of length m. -/
theorem shardIndices_of_dvd (w m r : Nat) (hw : 0 < w) (hr : r < w) :
    shardIndices w r (w * m) = (List.range m).map (fun k => r + k * w) := by
  unfold shardIndices
  rw [paddedIndices_of_dvd w m hw, ceilDiv_of_dvd w m hw]
  apply List.map_congr_left
  intro k hk
  rw [List.mem_range] at hk
  exact getD_range _ _ (by nlinarith)

/-- C4 counterexample: the claim states the shard assignment is a strict
partition for ALL valid pairs, including a dataset size not divisible by
the worker count. At worker_count 2 and dataset_size 3, DistributedSampler
pads the index list to even length by repeating initial indices, so
sample 0 lands in BOTH shards: rank 0 gets [0, 2] and rank 1 gets [1, 0]. -/
theorem c4_counterexample_nondivisible_duplicates :
    shardIndices 2 0 3 = [0, 2] ∧ shardIndices 2 1 3 = [1, 0] ∧
    0 ∈ shardIndices 2 0 3 ∧ 0 ∈ shardIndices 2 1 3 := by
  decide

/-- C4 amended: the shard assignment is deterministic (a pure function of
worker_count, worker_rank and dataset_size), and it is a strict partition
WHEN worker_count divides dataset_size: every sample index then appears
in exactly one worker's shard. When the size is not divisible, the
sampler's padding duplicates initial samples across shards. -/
theorem c4_shard_partition_when_divisible (w n i : Nat)
    (hw : 0 < w) (hd : w ∣ n) (hi : i < n) :
    ∃! r, r < w ∧ i ∈ shardIndices w r n := by
  obtain ⟨m, rfl⟩ := hd
  refine ⟨i % w, ⟨Nat.mod_lt _ hw, ?_⟩, ?_⟩
  · rw [shardIndices_of_dvd w m (i % w) hw (Nat.mod_lt _ hw)]
    simp only [List.mem_map, List.mem_range]
    refine ⟨i / w, Nat.div_lt_of_lt_mul hi, ?_⟩
    rw [Nat.add_comm, Nat.div_add_mod']
  · rintro r ⟨hr, hmem⟩
    rw [shardIndices_of_dvd w m r hw hr] at hmem
    simp only [List.mem_map, List.mem_range] at hmem
    obtain ⟨k, hk, heq⟩ := hmem
    subst heq
    rw [Nat.add_mul_mod_self_right]
    exact (Nat.mod_eq_of_lt hr).symm

/-- C4 witness: with 2 workers and 4 samples, sample 3 lies in exactly
one shard. -/
theorem c4_shard_partition_witness :
    ∃! r, r < 2 ∧ 3 ∈ shardIndices 2 r 4 :=
  c4_shard_partition_when_divisible 2 4 3 (by decide) ⟨2, rfl⟩ (by decide)

/-- Broadcast reads agree with direct reads while the index is in
bounds. -/
theorem bidx_eq {s i : Nat} (h : i < s) : bidx s i = i := by
  unfold bidx
  split_ifs with hs
  · omega
  · rfl

/-- Mask composition on a single-channel mask batch of matching batch,
height and width: it succeeds, keeps the image shape, and every in-bounds
entry is the image entry times the strict-threshold binarized mask entry
broadcast across the channel axis. -/
theorem composeMaskedImages_spec (images masks : Batch4)
    (hB : masks.bsz = images.bsz) (hC : masks.channels = 1)
    (hH : masks.height = images.height) (hW : masks.width = images.width) :
    ∃ t, composeMaskedImages images masks = some t ∧
      t.bsz = images.bsz ∧ t.channels = images.channels ∧
      t.height = images.height ∧ t.width = images.width ∧
      ∀ b c h w, b < images.bsz → c < images.channels →
        h < images.height → w < images.width →
        t.data b c h w = images.data b c h w *
          (if masks.data b 0 h w > (1 / 2 : ℚ) then 1 else 0) := by
  unfold composeMaskedImages expandChannel broadcastMul prepareBinaryMask
  by_cases h1 : images.channels = 1
  · simp only [hC, h1, hB, hH, hW]
    simp [bdim]
    intro b c h w hb hc0 hh hw
    subst hc0
    rw [bidx_eq hb, bidx_eq hh, bidx_eq hw, bidx_eq (by omega : (0 : Nat) < 1)]
  · simp only [hC, h1, hB, hH, hW]
    rw [if_neg (fun hh => h1 hh.symm)]
    simp [bdim]
    intro b c h w hb hc hh hw
    rw [bidx_eq hb, bidx_eq hh, bidx_eq hw, bidx_eq hc]

/-- The spec's scenario mask tensor with the values
[0.2, 0.6, 0.5, 0.9]. -/
def scenarioMaskValues : Batch4 :=
  { bsz := 1, channels := 1, height := 1, width := 4
    data := fun _ _ _ w => [(2 : ℚ) / 10, 6 / 10, 5 / 10, 9 / 10].getD w 0 }

/-- C5: binarization maps an entry to 1 exactly when it is strictly
greater than the threshold (default 0.5) — the scenario values
[0.2, 0.6, 0.5, 0.9] yield [0, 1, 0, 1], with 0.5 itself mapping to 0 —
and the composed output has the image's shape with every in-bounds entry
equal to the image entry times the binary mask entry broadcast across the
channel axis. -/
theorem c5_binarization_and_composition (images masks : Batch4) (b c h w : Nat)
    (hB : masks.bsz = images.bsz) (hC : masks.channels = 1)
    (hH : masks.height = images.height) (hW : masks.width = images.width)
    (hb : b < images.bsz) (hc : c < images.channels)
    (hh : h < images.height) (hw2 : w < images.width) :
    ((prepareBinaryMask scenarioMaskValues (1 / 2)).data 0 0 0 0 = 0 ∧
     (prepareBinaryMask scenarioMaskValues (1 / 2)).data 0 0 0 1 = 1 ∧
     (prepareBinaryMask scenarioMaskValues (1 / 2)).data 0 0 0 2 = 0 ∧
     (prepareBinaryMask scenarioMaskValues (1 / 2)).data 0 0 0 3 = 1) ∧
    ∃ t, composeMaskedImages images masks = some t ∧
      t.bsz = images.bsz ∧ t.channels = images.channels ∧
      t.height = images.height ∧ t.width = images.width ∧
      t.data b c h w = images.data b c h w *
        (if masks.data b 0 h w > (1 / 2 : ℚ) then 1 else 0) := by
  obtain ⟨t, h1, h2, h3, h4, h5, h6⟩ := composeMaskedImages_spec images masks hB hC hH hW
  refine ⟨⟨?_, ?_, ?_, ?_⟩, t, h1, h2, h3, h4, h5, h6 b c h w hb hc hh hw2⟩ <;>
    norm_num [prepareBinaryMask, scenarioMaskValues]

/-- Tiny well-formed image batch used to instantiate the mask theorems. -/
def oneImage : Batch4 :=
  { bsz := 1, channels := 1, height := 1, width := 1, data := fun _ _ _ _ => 2 }

/-- Tiny mask batch matching `oneImage`. -/
def oneMask : Batch4 :=
  { bsz := 1, channels := 1, height := 1, width := 1, data := fun _ _ _ _ => 1 }

/-- C5 witness: the theorem instantiated at a concrete 1 by 1 by 1 by 1
image and mask pair and index (0, 0, 0, 0). -/
theorem c5_binarization_and_composition_witness :
    ((prepareBinaryMask scenarioMaskValues (1 / 2)).data 0 0 0 0 = 0 ∧
     (prepareBinaryMask scenarioMaskValues (1 / 2)).data 0 0 0 1 = 1 ∧
     (prepareBinaryMask scenarioMaskValues (1 / 2)).data 0 0 0 2 = 0 ∧
     (prepareBinaryMask scenarioMaskValues (1 / 2)).data 0 0 0 3 = 1) ∧
    ∃ t, composeMaskedImages oneImage oneMask = some t ∧
      t.bsz = oneImage.bsz ∧ t.channels = oneImage.channels ∧
      t.height = oneImage.height ∧ t.width = oneImage.width ∧
      t.data 0 0 0 0 = oneImage.data 0 0 0 0 *
        (if oneMask.data 0 0 0 0 > (1 / 2 : ℚ) then 1 else 0) :=
  c5_binarization_and_composition oneImage oneMask 0 0 0 0 rfl rfl rfl rfl
    (by decide) (by decide) (by decide) (by decide)

/-- Image batch of size 2 for the batch-mismatch scenarios. -/
def imagesBatch2 : Batch4 :=
  { bsz := 2, channels := 3, height := 2, width := 2, data := fun _ _ _ _ => 1 }

/-- Mask batch of size 1: differs from the image batch size yet
broadcasts. -/
def maskBatch1 : Batch4 :=
  { bsz := 1, channels := 1, height := 2, width := 2, data := fun _ _ _ _ => 1 }

/-- Mask batch of size 3: incompatible with the image batch size 2. -/
def maskBatch3 : Batch4 :=
  { bsz := 3, channels := 1, height := 2, width := 2, data := fun _ _ _ _ => 1 }

/-- C6 counterexample: the claim states that composition fails whenever
the mask and image batch sizes differ; with an image batch of 2 and a
mask batch of 1 the sizes differ, yet PyTorch broadcasting stretches the
size-1 batch and the composition succeeds without any error. -/
theorem c6_counterexample_batch_one_broadcasts :
    imagesBatch2.bsz ≠ maskBatch1.bsz ∧
    (composeMaskedImages imagesBatch2 maskBatch1).isSome = true := by
  decide

/-- C6 amended: mask composition fails with the shape error when the two
batch sizes differ AND neither of them is 1; a size-1 batch on either
side broadcasts instead of failing. -/
theorem c6_batch_mismatch_fails (images masks : Batch4)
    (hne : images.bsz ≠ masks.bsz) (hi : images.bsz ≠ 1) (hm : masks.bsz ≠ 1) :
    composeMaskedImages images masks = none := by
  unfold composeMaskedImages expandChannel broadcastMul prepareBinaryMask
  by_cases h1 : masks.channels = images.channels
  · simp [h1, bdim, hne, hi, hm]
  · by_cases h2 : masks.channels = 1
    · have h3 : (1 : Nat) ≠ images.channels := by
        intro hh
        exact h1 (by omega)
      simp [h2, h3, bdim, hne, hi, hm]
    · simp [h1, h2]

/-- C6 witness: the amended theorem at image batch 2 against mask
batch 3. -/
theorem c6_batch_mismatch_fails_witness :
    imagesBatch2.bsz ≠ maskBatch3.bsz ∧ imagesBatch2.bsz ≠ 1 ∧
    maskBatch3.bsz ≠ 1 ∧
    composeMaskedImages imagesBatch2 maskBatch3 = none :=
  ⟨by decide, by decide, by decide,
   c6_batch_mismatch_fails imagesBatch2 maskBatch3 (by decide) (by decide) (by decide)⟩

/-- C7 counterexample: the claim states that a failure while saving the
diagnostic sample images is logged and not raised, so the batch still
returns its features; on the embedded code the `save_sample_images` call
sits in `extract_features` with no surrounding try/except, so a
filesystem failure propagates and the call returns no features. -/
theorem c7_counterexample_save_failure_raises :
    extractFeatures (Except.error "OSError: disk full")
      (fun _ => ([[7]] : List (List Int))) oneImage oneMask =
      Except.error "OSError: disk full" := by
  rfl

/-- C7 amended: whenever mask composition succeeds but the diagnostic
save fails, `extract_features` propagates the save failure instead of
returning the encoder's features. -/
theorem c7_save_failure_propagates {α : Type} (e : String)
    (encoder : Batch4 → List α) (images masks : Batch4)
    (hcomp : (composeMaskedImages images masks).isSome = true) :
    extractFeatures (Except.error e) encoder images masks = Except.error e := by
  unfold extractFeatures
  obtain ⟨t, ht⟩ := Option.isSome_iff_exists.mp hcomp
  rw [ht]

/-- C7 witness: the amended theorem at the concrete one-sample batch. -/
theorem c7_save_failure_propagates_witness :
    (composeMaskedImages oneImage oneMask).isSome = true ∧
    extractFeatures (Except.error "PermissionError")
      (fun _ => ([[7]] : List (List Int))) oneImage oneMask =
      Except.error "PermissionError" :=
  ⟨by decide,
   c7_save_failure_propagates "PermissionError" (fun _ => [[7]]) oneImage oneMask (by decide)⟩

/-- C10: model selection compares the configured CLIP name against the
literal string "None": DINOV2 is selected exactly when the name equals
that string, and an absent name (Python None, embedded as `Option.none`)
selects CLIP. -/
theorem c10_model_selection (clipName : Option String) :
    (selectModelType clipName = "DINOV2" ↔ clipName = some "None") ∧
    selectModelType none = "CLIP" := by
  constructor
  · constructor
    · intro h
      by_contra hne
      simp [selectModelType, hne] at h
    · intro h
      subst h
      rfl
  · rfl

/-- C10 witness: the theorem instantiated at the literal string "None". -/
theorem c10_model_selection_witness :
    (selectModelType (some "None") = "DINOV2" ↔
      (some "None" : Option String) = some "None") ∧
    selectModelType none = "CLIP" :=
  c10_model_selection (some "None")

end InstanceDetection
